import Mathlib

/-!
Shallow embedding of the tv-photo-slideshow playback engine and its services,
with theorems checking the natural-language specification against the code.

Source files embedded here:
- `src/components/Slideshow.jsx` (playback state machine: `goToNextPhoto`,
  `goToPreviousPhoto`, `togglePause`, the transition-completion timeout,
  `loadPhotos`, `shuffleArray`, and the EXIF-loading effect);
- `src/services/configService.js` (`loadConfig`, `migrateConfig`,
  `validateConfig`);
- `src/components/Settings.jsx` (`handleSubmit` save guard);
- `src/utils/exifUtils.js` (`extractExifData`, `formatExposureTime`,
  `getLocationName`).

JavaScript numbers are modelled as exact rationals (`ℚ`), JS truthiness of
strings/numbers is modelled explicitly (`""` and `0` are falsy), fallible
operations are modelled with `Except` (a `try`/`catch` maps the `error`
case to the caught branch), and the browser event loop is modelled by
explicit state machines whose `pending` fields list the scheduled
callbacks in FIFO order.
-/

/-! ## Playback engine state (Slideshow.jsx) -/

/-- The React component state of `Slideshow.jsx`: `photos`, `currentIndex`,
`nextIndex`, `isTransitioning`, `isPaused` (`useState` hooks), plus the list
of scheduled 1000 ms transition-completion timeouts; each pending entry
records the `next` value captured by the `setTimeout` closure. Timeouts all
share the same delay, so they fire in FIFO order. -/
structure SlideshowState where
  photos : List String
  currentIndex : Nat
  nextIndex : Nat
  isTransitioning : Bool
  isPaused : Bool
  pending : List Nat
deriving DecidableEq

/-- State right after `loadPhotos` succeeds: `photos` is set while the index
hooks keep their `useState` initial values `currentIndex = 0`,
`nextIndex = 1`, and no transition or timeout is active. -/
def initState (photoList : List String) : SlideshowState :=
  { photos := photoList, currentIndex := 0, nextIndex := 1,
    isTransitioning := false, isPaused := false, pending := [] }

/-- `goToNextPhoto` (Slideshow.jsx lines 244-257): returns early only when
`photos.length === 0`; otherwise sets `isTransitioning`, sets `nextIndex` to
`(currentIndex + 1) % photos.length` and schedules the completion timeout
carrying that target. There is no `isTransitioning` guard in this function. -/
def goToNextPhoto (s : SlideshowState) : SlideshowState :=
  if s.photos.length = 0 then s
  else
    let next := (s.currentIndex + 1) % s.photos.length
    { s with isTransitioning := true, nextIndex := next,
             pending := s.pending ++ [next] }

/-- `goToPreviousPhoto` (Slideshow.jsx lines 259-271): returns early when
`photos.length === 0 || isTransitioning`; otherwise sets `isTransitioning`,
sets `nextIndex` to the backward target
(`currentIndex === 0 ? photos.length - 1 : currentIndex - 1`) and schedules
the completion timeout carrying that target. -/
def goToPreviousPhoto (s : SlideshowState) : SlideshowState :=
  if s.photos.length = 0 ∨ s.isTransitioning = true then s
  else
    let prev := if s.currentIndex = 0 then s.photos.length - 1 else s.currentIndex - 1
    { s with isTransitioning := true, nextIndex := prev,
             pending := s.pending ++ [prev] }

/-- `togglePause` (Slideshow.jsx lines 273-275). -/
def togglePause (s : SlideshowState) : SlideshowState :=
  { s with isPaused := !s.isPaused }

/-- Firing of the oldest scheduled transition-completion timeout (the
`setTimeout` body in `goToNextPhoto`/`goToPreviousPhoto`): with captured
target `next` it runs `setCurrentIndex(next)`,
`setNextIndex((next + 1) % photos.length)`, `setIsTransitioning(false)`.
With no scheduled timeout nothing happens. -/
def fireTimeout (s : SlideshowState) : SlideshowState :=
  match s.pending with
  | [] => s
  | t :: rest =>
    { s with currentIndex := t, nextIndex := (t + 1) % s.photos.length,
             isTransitioning := false, pending := rest }

/-- One event-loop step of the mounted slideshow: a next command (keyboard or
auto-advance timer), a previous command, a pause toggle, or a scheduled
transition timeout firing. -/
inductive SlideStep : SlideshowState → SlideshowState → Prop where
  | next (s : SlideshowState) : SlideStep s (goToNextPhoto s)
  | prev (s : SlideshowState) : SlideStep s (goToPreviousPhoto s)
  | pause (s : SlideshowState) : SlideStep s (togglePause s)
  | fire (s : SlideshowState) : SlideStep s (fireTimeout s)

/-- States reachable from the freshly loaded slideshow for photo list `l`. -/
def Reachable (l : List String) (s : SlideshowState) : Prop :=
  Relation.ReflTransGen SlideStep (initState l) s

/-- Invoking next and letting its scheduled transition complete: the composite
"next operation with the transition allowed to complete". -/
def nextAndComplete (s : SlideshowState) : SlideshowState :=
  fireTimeout (goToNextPhoto s)

/-! ## Shuffle (Slideshow.jsx `shuffleArray`) and photo loading -/

/-- The destructuring swap `[a[i], a[j]] = [a[j], a[i]]` on a list; out of
bounds leaves the list unchanged (the shuffle loop only swaps in bounds). -/
def listSwap {α : Type} (l : List α) (i j : Nat) : List α :=
  if hi : i < l.length then
    if hj : j < l.length then
      (l.set i (l.get ⟨j, hj⟩)).set j (l.get ⟨i, hi⟩)
    else l
  else l

/-- The Fisher-Yates loop of `shuffleArray` (Slideshow.jsx lines 378-385):
`for (let i = shuffled.length - 1; i > 0; i--)` swaps position `i` with
`j = Math.floor(Math.random() * (i + 1))`. The random draws are modelled by
`rand`, with the draw at loop counter `i` reduced mod `i + 1` exactly as the
multiplication by `i + 1` bounds `j` in the source. -/
def fisherYates {α : Type} (rand : Nat → Nat) : Nat → List α → List α
  | 0, l => l
  | k + 1, l => fisherYates rand k (listSwap l (k + 1) (rand (k + 1) % (k + 2)))

/-- `shuffleArray` (Slideshow.jsx lines 378-385): copies the input
(`[...array]`, lists here are immutable values) and runs the Fisher-Yates
loop from index `length - 1` down to `1`. -/
def shuffleArray {α : Type} (rand : Nat → Nat) (array : List α) : List α :=
  fisherYates rand (array.length - 1) array

/-- Outcome of the `loadPhotos` effect (Slideshow.jsx lines 148-189). -/
inductive LoadResult where
  | failed (msg : String)
  | loaded (photos : List String)
deriving DecidableEq

/-- `loadPhotos` (Slideshow.jsx lines 148-189): on a fetch error sets the
error message; on an empty list sets the no-photos error; otherwise stores
`shuffleArray([...photoList])` when `shuffleMode` is set, else the list
itself. The shuffle is applied at this single point, once per load. -/
def loadPhotos (shuffleMode : Bool) (rand : Nat → Nat)
    (fetched : Except String (List String)) : LoadResult :=
  match fetched with
  | .error e => .failed ("Error loading photos: " ++ e)
  | .ok photoList =>
    if photoList.length = 0 then
      .failed "No photos found. Press MENU to configure S3 or add mock photos."
    else
      .loaded (if shuffleMode then shuffleArray rand photoList else photoList)

/-! ## EXIF-loading effect of Slideshow.jsx (lines 216-231)

The effect runs on every `currentIndex` change, awaits
`extractExifData(photos[currentIndex])` and calls `setExifData(data)` with
no staleness check and no cleanup. The machine below records the component
state the effect touches plus the in-flight requests; each in-flight entry
carries the index the request was issued for and the record it will resolve
with (`none` both for an extraction failure and for the `catch` branch,
which calls `setExifData(null)`). -/

/-- State of the EXIF-overlay data flow: current index, the overlay record
`exifData`, and the in-flight `extractExifData` calls. -/
structure ExifMachine (ρ : Type) where
  currentIndex : Nat
  exifData : Option ρ
  inflight : List (Nat × Option ρ)
deriving DecidableEq

/-- The effect body starting a fetch for the current index; `result` is the
record this request will eventually resolve with. -/
def issueFetch {ρ : Type} (m : ExifMachine ρ) (result : Option ρ) : ExifMachine ρ :=
  { m with inflight := m.inflight ++ [(m.currentIndex, result)] }

/-- A `currentIndex` change: the index moves to `i` and the effect re-runs,
issuing a fetch for the new index. -/
def changeIndex {ρ : Type} (m : ExifMachine ρ) (i : Nat) (result : Option ρ) :
    ExifMachine ρ :=
  issueFetch { m with currentIndex := i } result

/-- Resolution of the `k`-th in-flight request (network completions may come
in any order): the awaited `extractExifData` returns and the continuation
runs `setExifData(data)` — unconditionally, as in the source, which never
compares the request's index against the current one. -/
def resolveFetchAt {ρ : Type} (m : ExifMachine ρ) (k : Nat) : ExifMachine ρ :=
  match m.inflight[k]? with
  | none => m
  | some (_, r) => { m with exifData := r, inflight := m.inflight.eraseIdx k }

/-- Concrete trace: the effect fetches for index 0, the user advances to 1 and
then to 2 (each advance issuing a fetch), and then the fetch issued for
index 0 is the first to resolve. -/
def exifStaleTrace : ExifMachine String :=
  resolveFetchAt
    (changeIndex
      (changeIndex
        (changeIndex { currentIndex := 0, exifData := none, inflight := [] }
          0 (some "metaA"))
        1 (some "metaB"))
      2 (some "metaC"))
    0

/-! ## Configuration (configService.js, Settings.jsx, App.jsx) -/

/-- The nested `exifDisplay` policy of the configuration blob. -/
structure ExifDisplayConfig where
  enabled : Bool
  showDateTime : Bool
  showLocation : Bool
  showCameraInfo : Bool
  position : String
  style : String
  autoHide : Bool
  autoHideDelay : ℚ
deriving DecidableEq

/-- The configuration object. String fields use `""` for the JS-falsy
empty/absent value; `displayDuration` is `none` when the field is absent
(a present `0` is still falsy for `validateConfig`'s `&&` guard). -/
structure ConfigJS where
  s3Bucket : String
  s3Region : String
  s3Prefix : String
  displayDuration : Option ℚ
  transitionEffect : String
  shuffleMode : Bool
  exifDisplay : ExifDisplayConfig
deriving DecidableEq

/-- `validTransitions` (configService.js line 144). -/
def validTransitions : List String := ["fade", "slide-transition", "zoom"]

/-- The guard `config.displayDuration && (config.displayDuration < 1 ||
config.displayDuration > 300)` (configService.js line 139): a falsy
(absent or zero) duration skips the range check. -/
def durationCheckFails (d : Option ℚ) : Bool :=
  match d with
  | none => false
  | some v => if v = 0 then false else (if v < 1 ∨ 300 < v then true else false)

/-- The guard `config.transitionEffect &&
!validTransitions.includes(config.transitionEffect)` (configService.js
line 145): a falsy (empty) effect skips the membership check. -/
def effectCheckFails (t : String) : Bool :=
  if t = "" then false else (if t ∈ validTransitions then false else true)

/-- `validateConfig` (configService.js lines 125-150): rejects a non-object,
a falsy `s3Bucket` or `s3Region`, a truthy out-of-range `displayDuration`,
and a truthy unknown `transitionEffect`. -/
def validateConfig (config : Option ConfigJS) : Bool :=
  match config with
  | none => false
  | some c =>
    if c.s3Bucket = "" then false
    else if c.s3Region = "" then false
    else if durationCheckFails c.displayDuration then false
    else if effectCheckFails c.transitionEffect then false
    else true

/-- `handleSubmit` of Settings.jsx: the only check run before `onSave` (which
persists via `saveConfig`) is `!formData.s3Bucket || !formData.s3Region`;
on failure it alerts and returns without saving (`none`). -/
def handleSubmit (formData : ConfigJS) : Option ConfigJS :=
  if formData.s3Bucket = "" ∨ formData.s3Region = "" then none
  else some formData

/-- `CONFIG_VERSION` (configService.js line 2). -/
def CONFIG_VERSION : String := "1.0"

/-- The persisted wrapper written by `saveConfig`:
`{ version, data, savedAt }`; `data` is `none` for a blob that lacks the
field. -/
structure ConfigBlob where
  version : String
  data : Option ConfigJS
  savedAt : String
deriving DecidableEq

/-- What `localStorage.getItem` + `JSON.parse` can yield: no stored entry,
a failure (storage access or parse throws), or a parsed blob. -/
inductive StoredState where
  | absent
  | corrupt
  | blob (b : ConfigBlob)

/-- The two shapes `loadConfig` can hand back on success: the stored blob's
`data` field, or (from migration fallback) the raw blob itself. -/
inductive LoadedConfig where
  | dataShape (d : ConfigJS)
  | blobShape (b : ConfigBlob)
deriving DecidableEq

/-- `migrateConfig` (configService.js lines 69-73):
`return oldConfig.data || oldConfig` — the `data` field when present (a
parsed JSON object, hence truthy), otherwise the blob itself. -/
def migrateConfig (oldConfig : ConfigBlob) : LoadedConfig :=
  match oldConfig.data with
  | some d => LoadedConfig.dataShape d
  | none => LoadedConfig.blobShape oldConfig

/-- The `try` body of `loadConfig` (configService.js lines 8-29): missing
entry returns `null`; a parsed blob with mismatched version goes through
`migrateConfig`; a matching version returns `config.data`. A storage or
parse failure is an `error` value. -/
def loadConfigBody (st : StoredState) : Except String (Option LoadedConfig) :=
  match st with
  | .absent => .ok none
  | .corrupt => .error "Error loading config"
  | .blob b =>
    if b.version ≠ CONFIG_VERSION then .ok (some (migrateConfig b))
    else .ok (b.data.map LoadedConfig.dataShape)

/-- `loadConfig` with its `catch`: any failure of the body yields `null`. -/
def loadConfig (st : StoredState) : Option LoadedConfig :=
  match loadConfigBody st with
  | .error _ => none
  | .ok v => v

/-! ## Metadata extraction (exifUtils.js) -/

/-- JS truthiness filter for an optional string: the empty string is falsy. -/
def truthyS (s : Option String) : Option String :=
  match s with
  | some v => if v = "" then none else some v
  | none => none

/-- JS truthiness filter for an optional number: `0` is falsy. -/
def truthyQ (q : Option ℚ) : Option ℚ :=
  match q with
  | some v => if v = 0 then none else some v
  | none => none

/-- The chain `a || b` on string fields ending in `|| null`. -/
def jsOrS (a b : Option String) : Option String :=
  match truthyS a with
  | some v => some v
  | none => b

/-- The chain `a || b` on numeric fields ending in `|| null`. -/
def jsOrQ (a b : Option ℚ) : Option ℚ :=
  match truthyQ a with
  | some v => some v
  | none => b

/-- `exif.X?.trim() || null`: trim, then the empty result is falsy. -/
def trimS (s : Option String) : Option String :=
  match s with
  | none => none
  | some v => truthyS (some v.trim)

/-- `x.toFixed(1)` for the positive rationals reaching it. -/
def toFixed1 (q : ℚ) : String :=
  let n : ℤ := round (q * 10)
  toString (n / 10) ++ "." ++ toString (n % 10)

/-- `formatExposureTime` (exifUtils.js lines 96-106): falsy (absent or zero)
returns `null`; at least one second is rendered with one decimal; faster
speeds as the fraction `1/Math.round(1 / exposureTime)`. -/
def formatExposureTime (exposureTime : Option ℚ) : Option String :=
  match exposureTime with
  | none => none
  | some e =>
    if e = 0 then none
    else if 1 ≤ e then some (toFixed1 e)
    else some ("1/" ++ toString (round (1 / e)))

/-- The tags `exifr.parse` is asked to pick (exifUtils.js lines 15-37),
plus the decimal `latitude`/`longitude` exifr adds with `gps: true`. -/
structure ExifTags where
  dateTimeOriginal : Option String
  dateTime : Option String
  createDate : Option String
  latitude : Option ℚ
  longitude : Option ℚ
  gpsAltitude : Option ℚ
  make : Option String
  model : Option String
  lensModel : Option String
  fNumber : Option ℚ
  exposureTime : Option ℚ
  iso : Option ℚ
  focalLength : Option ℚ
  focalLengthIn35mm : Option ℚ
  imageWidth : Option ℚ
  imageHeight : Option ℚ
  orientation : Option ℚ
deriving DecidableEq

/-- The `address` object of the Nominatim reverse-geocoding response. -/
structure GeoAddress where
  city : Option String
  town : Option String
  village : Option String
  county : Option String
  state : Option String
  country : Option String
deriving DecidableEq

/-- The reverse-geocoding HTTP response: `response.ok` and the parsed
`data.address` (absent models `data.address` undefined, replaced by `{}`). -/
structure GeoResponse where
  ok : Bool
  address : Option GeoAddress
deriving DecidableEq

/-- The empty `{}` fallback for `data.address || {}`. -/
def emptyGeoAddress : GeoAddress :=
  { city := none, town := none, village := none, county := none,
    state := none, country := none }

/-- `getLocationName` (exifUtils.js lines 116-155): a thrown fetch/parse
error or `!response.ok` lands in the `catch` and returns `null`; otherwise
the name is built city/town/village/county, then state, then country, and
`null` when no part is available. -/
def getLocationName (geo : Except String GeoResponse) : Option String :=
  match geo with
  | .error _ => none
  | .ok resp =>
    if resp.ok = false then none
    else
      let a := resp.address.getD emptyGeoAddress
      let cityPart :=
        match truthyS a.city with
        | some c => [c]
        | none =>
          match truthyS a.town with
          | some t => [t]
          | none =>
            match truthyS a.village with
            | some v => [v]
            | none =>
              match truthyS a.county with
              | some c => [c]
              | none => []
      let parts := cityPart
        ++ (match truthyS a.state with | some v => [v] | none => [])
        ++ (match truthyS a.country with | some v => [v] | none => [])
      if parts = [] then none else some (String.intercalate ", " parts)

/-- The `formattedData` record built by `extractExifData`
(exifUtils.js lines 44-68); `locationName` is `none` when the GPS branch
does not run. -/
structure MetadataRecord where
  dateTime : Option String
  latitude : Option ℚ
  longitude : Option ℚ
  altitude : Option ℚ
  make : Option String
  model : Option String
  lensModel : Option String
  fNumber : Option ℚ
  exposureTime : Option String
  iso : Option ℚ
  focalLength : Option ℚ
  width : Option ℚ
  height : Option ℚ
  orientation : Option ℚ
  locationName : Option String
deriving DecidableEq

/-- The outside world as seen by one `extractExifData` call: the image
fetch (with blob decoding), the `exifr.parse` result (`none` models a
null/undefined parse result), and the reverse-geocoding call. -/
structure FetchWorld where
  fetchResult : Except String Unit
  parseResult : Except String (Option ExifTags)
  geocode : Except String GeoResponse

/-- The `formattedData` construction plus the GPS branch
(exifUtils.js lines 44-84): field-by-field `||`-defaulting, and when both
decimal coordinates are truthy, one `getLocationName` call whose outcome
(name or `null`) is stored without touching the coordinates. -/
def buildRecord (exif : ExifTags) (geo : Except String GeoResponse) : MetadataRecord :=
  let base : MetadataRecord :=
    { dateTime := jsOrS exif.dateTimeOriginal (jsOrS exif.dateTime (jsOrS exif.createDate none)),
      latitude := truthyQ exif.latitude,
      longitude := truthyQ exif.longitude,
      altitude := truthyQ exif.gpsAltitude,
      make := trimS exif.make,
      model := trimS exif.model,
      lensModel := trimS exif.lensModel,
      fNumber := truthyQ exif.fNumber,
      exposureTime := formatExposureTime exif.exposureTime,
      iso := truthyQ exif.iso,
      focalLength := jsOrQ exif.focalLength (jsOrQ exif.focalLengthIn35mm none),
      width := truthyQ exif.imageWidth,
      height := truthyQ exif.imageHeight,
      orientation := truthyQ exif.orientation,
      locationName := none }
  match base.latitude, base.longitude with
  | some _, some _ => { base with locationName := getLocationName geo }
  | _, _ => base

/-- The `try` body of `extractExifData` (exifUtils.js lines 8-89): fetch,
parse, the early `return null` for a null parse, then the record build. -/
def extractExifBody (w : FetchWorld) : Except String (Option MetadataRecord) :=
  match w.fetchResult with
  | .error e => .error e
  | .ok _ =>
    match w.parseResult with
    | .error e => .error e
    | .ok none => .ok none
    | .ok (some exif) => .ok (some (buildRecord exif w.geocode))

/-- `extractExifData` with its `catch`: any thrown failure yields `null`. -/
def extractExifData (w : FetchWorld) : Option MetadataRecord :=
  match extractExifBody w with
  | .error _ => none
  | .ok v => v

/-! ## Lemmas: swapping preserves the multiset of elements -/

/-- Setting an index to the element already there changes nothing. -/
theorem set_get_self {α : Type} :
    ∀ (l : List α) (i : Nat) (h : i < l.length), l.set i (l.get ⟨i, h⟩) = l := by
  intro l
  induction l with
  | nil => intro i h; simp at h
  | cons a t ih =>
    intro i h
    cases i with
    | zero => rfl
    | succ i =>
      have hi : i < t.length := by simpa using h
      simpa using ih i hi

/-- Balance equation for the element counts of `l.set i b`: the old element
at `i` leaves the multiset, `b` enters it. -/
theorem count_set_add {α : Type} [DecidableEq α] (b x : α) :
    ∀ (l : List α) (i : Nat), i < l.length →
      (l.set i b).count x + (if l[i]? = some x then 1 else 0) =
        l.count x + (if b = x then 1 else 0) := by
  intro l
  induction l with
  | nil => intro i h; simp at h
  | cons a t ih =>
    intro i h
    cases i with
    | zero =>
      simp only [List.set_cons_zero, List.count_cons, beq_iff_eq,
        List.getElem?_cons_zero, Option.some.injEq]
      split_ifs <;> omega
    | succ i =>
      have hi : i < t.length := by simpa using h
      have e := ih i hi
      simp only [List.set_cons_succ, List.count_cons, beq_iff_eq,
        List.getElem?_cons_succ] at e ⊢
      split_ifs at e ⊢ <;> omega

/-- The swap of two in-bounds positions is a permutation. -/
theorem listSwap_perm {α : Type} [DecidableEq α] (l : List α) (i j : Nat) :
    List.Perm (listSwap l i j) l := by
  unfold listSwap
  split
  case isFalse => exact List.Perm.refl l
  case isTrue hi =>
    split
    case isFalse => exact List.Perm.refl l
    case isTrue hj =>
      by_cases hij : i = j
      · subst hij
        rw [List.set_set, set_get_self]
      · apply List.perm_iff_count.mpr
        intro x
        have hlen : j < (l.set i (l.get ⟨j, hj⟩)).length := by simpa using hj
        have h1 := count_set_add (l.get ⟨j, hj⟩) x l i hi
        have h2 := count_set_add (l.get ⟨i, hi⟩) x (l.set i (l.get ⟨j, hj⟩)) j hlen
        have hgj : (l.set i (l.get ⟨j, hj⟩))[j]? = l[j]? := List.getElem?_set_ne hij
        rw [hgj] at h2
        rw [List.getElem?_eq_getElem hj] at h2
        rw [List.getElem?_eq_getElem hi] at h1
        simp only [List.get_eq_getElem, Option.some.injEq] at h1 h2 ⊢
        split_ifs at h1 h2 <;> omega

/-- Every Fisher-Yates pass returns a permutation of its input. -/
theorem fisherYates_perm {α : Type} [DecidableEq α] (rand : Nat → Nat) :
    ∀ (k : Nat) (l : List α), List.Perm (fisherYates rand k l) l := by
  intro k
  induction k with
  | zero => intro l; exact List.Perm.refl l
  | succ k ih =>
    intro l
    rw [fisherYates]
    exact (ih (listSwap l (k + 1) (rand (k + 1) % (k + 2)))).trans
      (listSwap_perm l (k + 1) (rand (k + 1) % (k + 2)))

/-- `shuffleArray` returns a permutation of its input, for every random
draw sequence. -/
theorem shuffleArray_perm {α : Type} [DecidableEq α] (rand : Nat → Nat)
    (array : List α) : List.Perm (shuffleArray rand array) array :=
  fisherYates_perm rand (array.length - 1) array

/-! ## C5 — shuffle applied once per load, and it is a permutation -/

/-- C5: for every non-empty fetched photo list and every random draw
sequence, `loadPhotos` with `shuffleMode` on stores exactly one application
of `shuffleArray` to the fetched list; the shuffled list is a permutation of
the input (same multiset of URLs); and with `shuffleMode` off the list is
stored unchanged (the input value itself is never mutated — `shuffleArray`
works on a copy and is a pure function here). -/
theorem loadPhotos_shuffles_once_and_permutes (rand : Nat → Nat)
    (photoList : List String) (hne : photoList ≠ []) :
    loadPhotos true rand (Except.ok photoList) =
      LoadResult.loaded (shuffleArray rand photoList) ∧
    List.Perm (shuffleArray rand photoList) photoList ∧
    loadPhotos false rand (Except.ok photoList) = LoadResult.loaded photoList := by
  have h0 : ¬(photoList.length = 0) := by simpa [List.length_eq_zero] using hne
  exact ⟨by simp [loadPhotos, h0], shuffleArray_perm rand photoList,
    by simp [loadPhotos, h0]⟩

/-- Witness for C5 at the concrete list `["a", "b", "c"]` and the identity
draw sequence. -/
theorem loadPhotos_shuffles_once_and_permutes_witness :
    (["a", "b", "c"] : List String) ≠ [] ∧
    loadPhotos true (fun n => n) (Except.ok ["a", "b", "c"]) =
      LoadResult.loaded (shuffleArray (fun n => n) ["a", "b", "c"]) ∧
    List.Perm (shuffleArray (fun n => n) ["a", "b", "c"]) ["a", "b", "c"] := by
  have h := loadPhotos_shuffles_once_and_permutes (fun n => n) ["a", "b", "c"]
    (by decide)
  exact ⟨by decide, h.1, h.2.1⟩

/-! ## Reachability invariant of the playback machine -/

/-- For a photo list with at least two entries, every reachable state keeps
`photos` fixed and, whenever no transition is displayed, has
`nextIndex = (currentIndex + 1) % length`. -/
theorem reachable_photos_inv (l : List String) (hl : 2 ≤ l.length)
    (s : SlideshowState) (h : Reachable l s) :
    s.photos = l ∧
    (s.isTransitioning = false → s.nextIndex = (s.currentIndex + 1) % l.length) := by
  induction h with
  | refl =>
    have h1 : (1 : Nat) % l.length = 1 := Nat.mod_eq_of_lt (by omega)
    exact ⟨rfl, fun _ => by simp [initState, h1]⟩
  | tail hab hbc ih =>
    obtain ⟨hph, hinv⟩ := ih
    rename_i b c
    cases hbc with
    | next =>
      unfold goToNextPhoto
      split
      · exact ⟨hph, hinv⟩
      · exact ⟨hph, fun hT => by simp at hT⟩
    | prev =>
      unfold goToPreviousPhoto
      split
      · exact ⟨hph, hinv⟩
      · exact ⟨hph, fun hT => by simp at hT⟩
    | pause => exact ⟨hph, hinv⟩
    | fire =>
      unfold fireTimeout
      cases hp : b.pending with
      | nil => exact ⟨hph, hinv⟩
      | cons x rest => exact ⟨hph, fun _ => by simp [hph]⟩

/-! ## C1 — re-entrancy guard on navigation -/

/-- C1 counterexample: from the loaded three-photo slideshow, press previous
(a transition starts, `isTransitioning = true`), then press next while the
transition is in flight. `goToNextPhoto` is not a no-op: it rewrites
`nextIndex` and schedules a second completion timeout, so two transitions
are concurrently in flight (`pending.length = 2`). -/
theorem goToNextPhoto_not_noop_while_transitioning :
    (goToPreviousPhoto (initState ["a", "b", "c"])).isTransitioning = true ∧
    goToNextPhoto (goToPreviousPhoto (initState ["a", "b", "c"])) ≠
      goToPreviousPhoto (initState ["a", "b", "c"]) ∧
    (goToNextPhoto (goToPreviousPhoto (initState ["a", "b", "c"]))).pending.length = 2 := by
  decide

/-- C1 amended: while a transition is in flight, `goToPreviousPhoto` is a
no-op (it alone carries the `isTransitioning` guard), but `goToNextPhoto`
is not guarded: on any non-empty photo list it starts one more transition,
scheduling an additional completion timeout. -/
theorem prev_guarded_next_unguarded (s : SlideshowState)
    (h : s.isTransitioning = true) :
    goToPreviousPhoto s = s ∧
    (s.photos ≠ [] →
      (goToNextPhoto s).pending.length = s.pending.length + 1 ∧
      (goToNextPhoto s).isTransitioning = true) := by
  constructor
  · unfold goToPreviousPhoto
    simp [h]
  · intro hne
    have hlen : ¬(s.photos.length = 0) := by
      simpa [List.length_eq_zero] using hne
    unfold goToNextPhoto
    simp [hlen]

/-- Witness for `prev_guarded_next_unguarded` at a concrete transitioning
state. -/
theorem prev_guarded_next_unguarded_witness :
    goToPreviousPhoto (goToPreviousPhoto (initState ["a", "b"])) =
      goToPreviousPhoto (initState ["a", "b"]) ∧
    (goToNextPhoto (goToPreviousPhoto (initState ["a", "b"]))).pending.length =
      (goToPreviousPhoto (initState ["a", "b"])).pending.length + 1 := by
  have h := prev_guarded_next_unguarded (goToPreviousPhoto (initState ["a", "b"]))
    (by decide)
  exact ⟨h.1, (h.2 (by decide)).1⟩

/-! ## C3 — the `nextIndex` successor invariant -/

/-- C3 counterexample: a freshly loaded singleton slideshow is a reachable
playback state with no previous-navigation in flight, yet
`nextIndex = 1 ≠ (0 + 1) % 1 = 0` (the `useState` initial value `1` is
never reconciled with a one-photo list). -/
theorem singleton_init_breaks_successor_invariant :
    Reachable ["a"] (initState ["a"]) ∧
    (initState ["a"]).isTransitioning = false ∧
    ¬((initState ["a"]).nextIndex =
      ((initState ["a"]).currentIndex + 1) % (["a"] : List String).length) := by
  exact ⟨Relation.ReflTransGen.refl, rfl, by decide⟩

/-- C3 amended: for photo lists with at least two entries, every reachable
state outside a transition window satisfies
`nextIndex = (currentIndex + 1) % length`; invoking previous from such a
state sets `nextIndex` to the backward target; and every transition
completion sets `currentIndex` to the completing timeout's pending target,
recomputes `nextIndex` as its successor and clears the transition flag. -/
theorem nextIndex_successor_invariant (l : List String) (s : SlideshowState)
    (hl : 2 ≤ l.length) (hr : Reachable l s) :
    (s.isTransitioning = false → s.nextIndex = (s.currentIndex + 1) % l.length) ∧
    (s.isTransitioning = false →
      (goToPreviousPhoto s).nextIndex =
        if s.currentIndex = 0 then l.length - 1 else s.currentIndex - 1) ∧
    (s.pending ≠ [] →
      (fireTimeout s).currentIndex = s.pending.headI ∧
      (fireTimeout s).nextIndex = (s.pending.headI + 1) % l.length ∧
      (fireTimeout s).isTransitioning = false) := by
  obtain ⟨hph, hinv⟩ := reachable_photos_inv l hl s hr
  have hlen : ¬(l.length = 0) := by omega
  refine ⟨hinv, ?_, ?_⟩
  · intro hT
    unfold goToPreviousPhoto
    simp [hph, hT, hlen]
  · intro hpend
    cases hp : s.pending with
    | nil => exact absurd hp hpend
    | cons t rest =>
      unfold fireTimeout
      rw [hp]
      simp [hph]

/-- Witness for `nextIndex_successor_invariant` at the freshly loaded
two-photo slideshow. -/
theorem nextIndex_successor_invariant_witness :
    2 ≤ (["a", "b"] : List String).length ∧
    (initState ["a", "b"]).nextIndex =
      ((initState ["a", "b"]).currentIndex + 1) % (["a", "b"] : List String).length ∧
    (goToPreviousPhoto (initState ["a", "b"])).nextIndex = 1 := by
  have h := nextIndex_successor_invariant ["a", "b"] (initState ["a", "b"])
    (by decide) Relation.ReflTransGen.refl
  refine ⟨by decide, h.1 rfl, ?_⟩
  have h2 := h.2.1 rfl
  simpa [initState] using h2

/-! ## C4 — N nexts return to the start -/

/-- One clean "next with completed transition" step: `photos` kept, the
timeout queue drains back to empty, and `currentIndex` moves to its
successor modulo the list length. -/
theorem nextAndComplete_clean (t : SlideshowState)
    (hlen : ¬(t.photos.length = 0)) (hp : t.pending = []) :
    (nextAndComplete t).photos = t.photos ∧
    (nextAndComplete t).pending = [] ∧
    (nextAndComplete t).currentIndex = (t.currentIndex + 1) % t.photos.length := by
  unfold nextAndComplete goToNextPhoto fireTimeout
  simp [hlen, hp]

/-- Iterating "next, then let the transition complete" advances
`currentIndex` cyclically while keeping `photos` and an empty timeout
queue. -/
theorem nextAndComplete_iterate (l : List String) (hne : l ≠ []) :
    ∀ (k : Nat) (s : SlideshowState), s.photos = l → s.pending = [] →
      s.currentIndex < l.length →
      (nextAndComplete^[k] s).photos = l ∧
      (nextAndComplete^[k] s).pending = [] ∧
      (nextAndComplete^[k] s).currentIndex = (s.currentIndex + k) % l.length := by
  have hlen : ¬(l.length = 0) := by simpa [List.length_eq_zero] using hne
  intro k
  induction k with
  | zero =>
    intro s h1 h2 h3
    simp only [Function.iterate_zero_apply]
    exact ⟨h1, h2, by rw [Nat.add_zero, Nat.mod_eq_of_lt h3]⟩
  | succ k ih =>
    intro s h1 h2 h3
    rw [Function.iterate_succ_apply']
    obtain ⟨p1, p2, p3⟩ := ih s h1 h2 h3
    have hlen2 : ¬((nextAndComplete^[k] s).photos.length = 0) := by
      rw [p1]; exact hlen
    obtain ⟨q1, q2, q3⟩ := nextAndComplete_clean (nextAndComplete^[k] s) hlen2 p2
    refine ⟨by rw [q1, p1], q2, ?_⟩
    rw [q3, p1, p3, Nat.mod_add_mod, Nat.add_assoc]

/-- C4: from any clean playback state over a non-empty photo list of length
N, invoking next N times, each transition allowed to complete, returns
`currentIndex` to its starting value. -/
theorem next_length_times_returns_to_start (l : List String) (s : SlideshowState)
    (hph : s.photos = l) (hne : l ≠ []) (hcur : s.currentIndex < l.length)
    (hp : s.pending = []) :
    (nextAndComplete^[l.length] s).currentIndex = s.currentIndex := by
  obtain ⟨-, -, h3⟩ := nextAndComplete_iterate l hne l.length s hph hp hcur
  rw [h3, Nat.add_mod_right, Nat.mod_eq_of_lt hcur]

/-- Witness for `next_length_times_returns_to_start` on a three-photo list. -/
theorem next_length_times_returns_to_start_witness :
    (initState ["a", "b", "c"]).photos = ["a", "b", "c"] ∧
    (["a", "b", "c"] : List String) ≠ [] ∧
    (nextAndComplete^[(["a", "b", "c"] : List String).length]
      (initState ["a", "b", "c"])).currentIndex =
      (initState ["a", "b", "c"]).currentIndex := by
  refine ⟨rfl, by decide, ?_⟩
  exact next_length_times_returns_to_start ["a", "b", "c"]
    (initState ["a", "b", "c"]) rfl (by decide) (by decide) rfl

/-! ## C7 — navigation on lists of length zero or one -/

/-- C7 counterexample: with exactly one photo, neither navigation command is
a no-op — both flip `isTransitioning` and schedule a completion timeout
(the early return only checks `photos.length === 0`). -/
theorem single_photo_nav_not_noop :
    (initState ["a"]).photos.length = 1 ∧
    goToNextPhoto (initState ["a"]) ≠ initState ["a"] ∧
    goToPreviousPhoto (initState ["a"]) ≠ initState ["a"] := by
  decide

/-- C7 amended: the navigation commands are state-preserving no-ops (and
raise no error) only for an empty photo list; with a single photo they
start a genuine self-transition whose completion leaves `currentIndex`
at 0 again. -/
theorem nav_noop_only_for_empty_list (s s₁ : SlideshowState)
    (h0 : s.photos = []) (h1 : s₁.photos.length = 1) (hp : s₁.pending = []) :
    goToNextPhoto s = s ∧ goToPreviousPhoto s = s ∧
    (fireTimeout (goToNextPhoto s₁)).currentIndex = 0 ∧
    (fireTimeout (goToNextPhoto s₁)).isTransitioning = false := by
  have hl : s.photos.length = 0 := by simp [h0]
  have hl1 : ¬(s₁.photos.length = 0) := by omega
  refine ⟨?_, ?_, ?_, ?_⟩
  · unfold goToNextPhoto; simp [hl]
  · unfold goToPreviousPhoto; simp [hl]
  · unfold goToNextPhoto fireTimeout; simp [hl1, hp, h1, Nat.mod_one]
  · unfold goToNextPhoto fireTimeout; simp [hl1, hp, h1, Nat.mod_one]

/-- Witness for `nav_noop_only_for_empty_list` at the empty and singleton
slideshows. -/
theorem nav_noop_only_for_empty_list_witness :
    goToNextPhoto (initState []) = initState [] ∧
    goToPreviousPhoto (initState []) = initState [] ∧
    (fireTimeout (goToNextPhoto (initState ["a"]))).currentIndex = 0 := by
  have h := nav_noop_only_for_empty_list (initState []) (initState ["a"]) rfl rfl rfl
  exact ⟨h.1, h.2.1, h.2.2.1⟩

/-! ## C10 — previous at index 0 wraps to the last photo -/

/-- C10: on a list of length at least two, invoking previous at
`currentIndex = 0` outside a transition targets `length - 1`; after the
scheduled completion fires, `currentIndex = length - 1` and
`nextIndex = 0`. -/
theorem prev_at_zero_wraps_to_last (l : List String) (s : SlideshowState)
    (hph : s.photos = l) (hl : 2 ≤ l.length) (hc : s.currentIndex = 0)
    (hT : s.isTransitioning = false) (hp : s.pending = []) :
    (goToPreviousPhoto s).nextIndex = l.length - 1 ∧
    (goToPreviousPhoto s).pending = [l.length - 1] ∧
    (fireTimeout (goToPreviousPhoto s)).currentIndex = l.length - 1 ∧
    (fireTimeout (goToPreviousPhoto s)).nextIndex = 0 := by
  have hlen : ¬(l.length = 0) := by omega
  have hmod : (l.length - 1 + 1) % l.length = 0 := by
    rw [Nat.sub_add_cancel (by omega)]
    exact Nat.mod_self l.length
  unfold goToPreviousPhoto fireTimeout
  simp [hph, hc, hT, hlen, hp, hmod]

/-- Witness for `prev_at_zero_wraps_to_last` on a three-photo list. -/
theorem prev_at_zero_wraps_to_last_witness :
    (goToPreviousPhoto (initState ["a", "b", "c"])).nextIndex = 2 ∧
    (fireTimeout (goToPreviousPhoto (initState ["a", "b", "c"]))).currentIndex = 2 ∧
    (fireTimeout (goToPreviousPhoto (initState ["a", "b", "c"]))).nextIndex = 0 := by
  have h := prev_at_zero_wraps_to_last ["a", "b", "c"] (initState ["a", "b", "c"])
    rfl (by decide) rfl rfl rfl
  exact ⟨h.1, h.2.2.1, h.2.2.2⟩

/-! ## C2 — stale metadata fetches -/

/-- C2 counterexample: after fetches are issued for indices 0, 1 and 2 and
the index has advanced to 2, the resolution of the fetch issued for index 0
is still applied: the overlay shows the index-0 record while
`currentIndex = 2`. Nothing in `loadExifData` keys the request to its
index or drops stale results. -/
theorem stale_fetch_applied_not_discarded :
    exifStaleTrace.currentIndex = 2 ∧
    exifStaleTrace.exifData = some "metaA" := by
  exact ⟨rfl, rfl⟩

/-- C2 amended: whenever an in-flight metadata fetch resolves, its record is
applied to the overlay state unconditionally — the effect performs a bare
`setExifData(data)` with no index keying — even when `currentIndex` has
advanced past the index the fetch was issued for; staleness is only masked
by the fresh fetch that each index change issues, whose later resolution
overwrites the stale record. -/
theorem resolve_applies_unconditionally {ρ : Type} (m : ExifMachine ρ)
    (k idx : Nat) (r : Option ρ) (h : m.inflight[k]? = some (idx, r)) :
    (resolveFetchAt m k).exifData = r ∧
    (resolveFetchAt m k).currentIndex = m.currentIndex := by
  unfold resolveFetchAt
  rw [h]
  exact ⟨rfl, rfl⟩

/-- Witness for `resolve_applies_unconditionally` on a concrete one-request
machine. -/
theorem resolve_applies_unconditionally_witness :
    ((changeIndex (ExifMachine.mk 0 none ([] : List (Nat × Option String)))
        0 (some "A")).inflight[0]? = some (0, some "A")) ∧
    (resolveFetchAt
      (changeIndex (ExifMachine.mk 0 none ([] : List (Nat × Option String)))
        0 (some "A")) 0).exifData = some "A" := by
  refine ⟨rfl, ?_⟩
  exact (resolve_applies_unconditionally
    (changeIndex (ExifMachine.mk 0 none ([] : List (Nat × Option String)))
      0 (some "A")) 0 0 (some "A") rfl).1

/-! ## C6 — configuration validation -/

/-- C6 counterexample: a configuration whose `displayDuration` is `0` — a
value outside `[1, 300]` — passes `validateConfig`, because the JS guard
`config.displayDuration && (...)` short-circuits on the falsy `0`. (The
accepted transition-effect enum is likewise `fade`/`slide-transition`/
`zoom`, not `fade`/`slide`/`zoom`.) -/
theorem validateConfig_accepts_zero_duration :
    validateConfig (some
      { s3Bucket := "photos", s3Region := "us-east-1", s3Prefix := "",
        displayDuration := some 0, transitionEffect := "fade",
        shuffleMode := false,
        exifDisplay :=
          { enabled := true, showDateTime := true, showLocation := true,
            showCameraInfo := false, position := "bottom-left",
            style := "style-modern-blur", autoHide := false,
            autoHideDelay := 5 } }) = true ∧
    ¬(1 ≤ (0 : ℚ) ∧ (0 : ℚ) ≤ 300) := by
  exact ⟨rfl, by decide⟩

/-- The duration guard passes exactly when the duration is absent, zero, or
within `[1, 300]`. -/
theorem durationCheckFails_false_iff (d : Option ℚ) :
    durationCheckFails d = false ↔
      (match d with
       | none => True
       | some v => v = 0 ∨ (1 ≤ v ∧ v ≤ 300)) := by
  cases d with
  | none => simp [durationCheckFails]
  | some v =>
    simp only [durationCheckFails]
    split_ifs with h0 hrange
    · simp [h0]
    · refine iff_of_false (by simp) ?_
      rintro (h | ⟨h1, h2⟩)
      · exact h0 h
      · rcases hrange with h | h
        · exact absurd h1 (not_le.mpr h)
        · exact absurd h2 (not_le.mpr h)
    · have hno := not_or.mp hrange
      exact iff_of_true rfl (Or.inr ⟨not_lt.mp hno.1, not_lt.mp hno.2⟩)

/-- The transition-effect guard passes exactly when the effect is empty or a
member of `validTransitions`. -/
theorem effectCheckFails_false_iff (t : String) :
    effectCheckFails t = false ↔ (t = "" ∨ t ∈ validTransitions) := by
  simp only [effectCheckFails]
  split_ifs with hte hmem
  · exact iff_of_true rfl (Or.inl hte)
  · exact iff_of_true rfl (Or.inr hmem)
  · refine iff_of_false (by simp) ?_
    rintro (h | h)
    · exact hte h
    · exact hmem h

/-- C6 amended: `validateConfig` accepts exactly the configurations with a
non-empty `s3Bucket` and `s3Region` whose `displayDuration`, when present
and non-zero, lies in `[1, 300]`, and whose `transitionEffect`, when
non-empty, is one of `fade`, `slide-transition`, `zoom` (a zero duration
and an empty effect are skipped by the falsy guards; the enum contains
`slide-transition`, not `slide`). The settings form's save path rejects
only an empty bucket or region before persisting. -/
theorem validateConfig_characterization (c : ConfigJS) :
    validateConfig none = false ∧
    (validateConfig (some c) = true ↔
      (c.s3Bucket ≠ "" ∧ c.s3Region ≠ "" ∧
       (match c.displayDuration with
        | none => True
        | some d => d = 0 ∨ (1 ≤ d ∧ d ≤ 300)) ∧
       (c.transitionEffect = "" ∨ c.transitionEffect ∈ validTransitions))) ∧
    ((c.s3Bucket = "" ∨ c.s3Region = "") → handleSubmit c = none) := by
  refine ⟨rfl, ?_, ?_⟩
  · simp only [validateConfig]
    split_ifs with hb hr hd he
    · exact iff_of_false (by simp) (fun h => h.1 hb)
    · exact iff_of_false (by simp) (fun h => h.2.1 hr)
    · refine iff_of_false (by simp) ?_
      rintro ⟨-, -, h3, -⟩
      have hf : durationCheckFails c.displayDuration = false :=
        (durationCheckFails_false_iff c.displayDuration).mpr h3
      exact absurd (hf ▸ hd) (by simp)
    · refine iff_of_false (by simp) ?_
      rintro ⟨-, -, -, h4⟩
      have hf : effectCheckFails c.transitionEffect = false :=
        (effectCheckFails_false_iff c.transitionEffect).mpr h4
      exact absurd (hf ▸ he) (by simp)
    · refine iff_of_true rfl ⟨hb, hr, ?_, ?_⟩
      · refine (durationCheckFails_false_iff c.displayDuration).mp ?_
        cases hx : durationCheckFails c.displayDuration
        · rfl
        · exact absurd hx hd
      · refine (effectCheckFails_false_iff c.transitionEffect).mp ?_
        cases hx : effectCheckFails c.transitionEffect
        · rfl
        · exact absurd hx he
  · intro h
    unfold handleSubmit
    simp [h]

/-- Witness for `validateConfig_characterization`: the default-like
configuration is accepted; an empty-bucket configuration is stopped by the
settings form before any save. -/
theorem validateConfig_characterization_witness :
    validateConfig (some
      { s3Bucket := "photos", s3Region := "us-east-1", s3Prefix := "",
        displayDuration := some 10, transitionEffect := "slide-transition",
        shuffleMode := false,
        exifDisplay :=
          { enabled := true, showDateTime := true, showLocation := true,
            showCameraInfo := false, position := "bottom-left",
            style := "style-modern-blur", autoHide := false,
            autoHideDelay := 5 } }) = true ∧
    handleSubmit
      { s3Bucket := "", s3Region := "us-east-1", s3Prefix := "",
        displayDuration := some 10, transitionEffect := "fade",
        shuffleMode := false,
        exifDisplay :=
          { enabled := true, showDateTime := true, showLocation := true,
            showCameraInfo := false, position := "bottom-left",
            style := "style-modern-blur", autoHide := false,
            autoHideDelay := 5 } } = none := by
  constructor
  · exact (validateConfig_characterization _).2.1.mpr
      (by refine ⟨by decide, by decide, ?_, ?_⟩
          · exact Or.inr (by constructor <;> decide)
          · exact Or.inr (by decide))
  · exact (validateConfig_characterization _).2.2 (Or.inl rfl)

/-! ## C9 — configuration loading and migration -/

/-- C9: `loadConfig` yields `null` on a missing entry and on any load
failure (the `catch` swallows storage and parse errors) and, being a total
function of the stored state, never throws; `migrateConfig` is total and
returns the blob's `data` field when present, otherwise the blob itself;
and a version mismatch routes the load through `migrateConfig`. -/
theorem loadConfig_null_on_failure_migration_total (b : ConfigBlob) :
    loadConfig StoredState.corrupt = none ∧
    loadConfig StoredState.absent = none ∧
    migrateConfig b =
      (b.data.map LoadedConfig.dataShape).getD (LoadedConfig.blobShape b) ∧
    (b.version ≠ CONFIG_VERSION →
      loadConfig (StoredState.blob b) = some (migrateConfig b)) := by
  refine ⟨rfl, rfl, ?_, ?_⟩
  · cases hb : b.data with
    | none => simp [migrateConfig, hb]
    | some d => simp [migrateConfig, hb]
  · intro hv
    unfold loadConfig loadConfigBody
    simp [hv]

/-- Witness for `loadConfig_null_on_failure_migration_total` on a version-
mismatched blob without a `data` field. -/
theorem loadConfig_null_on_failure_migration_total_witness :
    loadConfig StoredState.corrupt = none ∧
    loadConfig (StoredState.blob
      { version := "0.9", data := none, savedAt := "2024-01-01" }) =
      some (migrateConfig
        { version := "0.9", data := none, savedAt := "2024-01-01" }) := by
  have h := loadConfig_null_on_failure_migration_total
    { version := "0.9", data := none, savedAt := "2024-01-01" }
  exact ⟨h.1, h.2.2.2 (by decide)⟩

/-! ## C8 — metadata extraction: total, null on failure, partial GPS result -/

/-- C8: `extractExifData` is a total function into `Option MetadataRecord`
(the top-level `catch` turns every thrown failure into `null`, so playback
is never interrupted): a fetch error, a parse error or a null parse result
all yield `none`; and when the parsed tags carry truthy GPS coordinates but
the reverse-geocoding call fails, the returned record keeps the coordinates
populated while `locationName` is `null`. -/
theorem extractExifData_null_on_failure_geo_partial (w w2 : FetchWorld)
    (exif : ExifTags) (la lo : ℚ) (em : String)
    (hfail : (∃ m, w.fetchResult = Except.error m) ∨
             (∃ m, w.parseResult = Except.error m) ∨
             w.parseResult = Except.ok none)
    (h2f : w2.fetchResult = Except.ok ())
    (h2p : w2.parseResult = Except.ok (some exif))
    (h2la : truthyQ exif.latitude = some la)
    (h2lo : truthyQ exif.longitude = some lo)
    (h2g : w2.geocode = Except.error em) :
    extractExifData w = none ∧
    (extractExifData w2).map
      (fun r => (r.locationName, r.latitude, r.longitude)) =
      some (none, some la, some lo) := by
  constructor
  · unfold extractExifData extractExifBody
    rcases hfail with ⟨m, hm⟩ | ⟨m, hm⟩ | hm
    · simp [hm]
    · cases hf : w.fetchResult <;> simp [hf, hm]
    · cases hf : w.fetchResult <;> simp [hf, hm]
  · unfold extractExifData extractExifBody buildRecord
    rw [h2f, h2p]
    simp [h2la, h2lo, h2g, getLocationName]

/-- Witness for `extractExifData_null_on_failure_geo_partial` at a concrete
failing fetch and a concrete GPS-carrying photo whose geocoding call
fails. -/
theorem extractExifData_null_on_failure_geo_partial_witness :
    extractExifData
      { fetchResult := Except.error "network error",
        parseResult := Except.ok none,
        geocode := Except.ok { ok := true, address := none } } = none ∧
    (extractExifData
      { fetchResult := Except.ok (),
        parseResult := Except.ok (some
          { dateTimeOriginal := some "2024:01:01 00:00:00", dateTime := none,
            createDate := none, latitude := some 47, longitude := some (-122),
            gpsAltitude := none, make := some "Canon", model := none,
            lensModel := none, fNumber := none, exposureTime := none,
            iso := none, focalLength := none, focalLengthIn35mm := none,
            imageWidth := none, imageHeight := none, orientation := none }),
        geocode := Except.error "Geocoding request failed" }).map
      (fun r => (r.locationName, r.latitude, r.longitude)) =
      some (none, some 47, some (-122)) := by
  have h := extractExifData_null_on_failure_geo_partial
    { fetchResult := Except.error "network error",
      parseResult := Except.ok none,
      geocode := Except.ok { ok := true, address := none } }
    { fetchResult := Except.ok (),
      parseResult := Except.ok (some
        { dateTimeOriginal := some "2024:01:01 00:00:00", dateTime := none,
          createDate := none, latitude := some 47, longitude := some (-122),
          gpsAltitude := none, make := some "Canon", model := none,
          lensModel := none, fNumber := none, exposureTime := none,
          iso := none, focalLength := none, focalLengthIn35mm := none,
          imageWidth := none, imageHeight := none, orientation := none })
      geocode := Except.error "Geocoding request failed" }
    { dateTimeOriginal := some "2024:01:01 00:00:00", dateTime := none,
      createDate := none, latitude := some 47, longitude := some (-122),
      gpsAltitude := none, make := some "Canon", model := none,
      lensModel := none, fNumber := none, exposureTime := none,
      iso := none, focalLength := none, focalLengthIn35mm := none,
      imageWidth := none, imageHeight := none, orientation := none }
    47 (-122) "Geocoding request failed"
    (Or.inl ⟨"network error", rfl⟩) rfl rfl (by decide) (by decide) rfl
  exact ⟨h.1, h.2⟩
